import Mathlib

/-!
Shallow embedding of the balancing subsystem of the ydb-go-sdk driver
(src/internal/balancer/balancer.go).

Go side effects are made explicit: the mutable world (the Connection Pool's
per-connection health flags and the endpoints' liveness marks) is a record
threaded through each operation, and every externally visible action
(pool Allow/Ban, endpoint Touch, Repeater Force/Stop, lock acquire/release,
snapshot swap, subscriber notification, discovery attempt) is emitted into an
event trace.  Go errors become an inductive type in which the wrapping
performed by xerrors.WithStackTrace, xerrors.Retryable and fmt.Errorf with a
percent-w verb is explicit, so that error identity can be stated precisely.

The file connections_state.go of the repository is not part of the sources at
hand: the snapshot type `connectionsState` with its constructor
`newConnectionsState` and methods `GetConnection` and `PreferredCount` is
modelled from the specification text (each such definition is marked
`Modelled from the spec:`).  Everything else is translated directly from
balancer.go.
-/

namespace YdbBalancer

/-- Health flag of a pooled connection (conn package): Allowed or Banned. -/
inductive ConnHealth where
  | Allowed : ConnHealth
  | Banned : ConnHealth
deriving DecidableEq, Repr

/-- A discovered node descriptor; the claims only need its identity (address). -/
structure Endpoint where
  address : String
deriving DecidableEq, Repr

/-- endpoint.New: build an endpoint descriptor from an address string. -/
def Endpoint.New (addr : String) : Endpoint := ⟨addr⟩

/-- A pool connection handle is bound to exactly one endpoint; the Balancer
holds non-owning references, so the handle is identified with its endpoint. -/
abbrev Conn := Endpoint

/-- Conn.Endpoint of the conn package: the endpoint the handle is bound to. -/
def Conn.endpointOf (c : Conn) : Endpoint := c

/-- Go errors as seen by balancer.go: leaves (context deadline / cancellation,
the package-level ErrNoEndpoints, a transport failure with a gRPC code, any
other operation error identified by a tag) and the explicit wrappers
(xerrors.WithStackTrace, xerrors.Retryable, and the fmt.Errorf wrap of
ErrNoEndpoints that carries the failed-attempts count in getConn). -/
inductive GoErr where
  | deadlineExceeded : GoErr
  | canceled : GoErr
  | noEndpoints : GoErr
  | transport (code : Nat) : GoErr
  | otherErr (tag : Nat) : GoErr
  | stackTrace (e : GoErr) : GoErr
  | retryableMark (e : GoErr) : GoErr
  | wrapfCount (failedCount : Nat) (e : GoErr) : GoErr
deriving DecidableEq, Repr

/-- The innermost error of a wrap chain; errors.Is against a leaf target
unwraps every wrapper, so identity comparisons go through this. -/
def GoErr.base : GoErr → GoErr
  | .stackTrace e => e.base
  | .retryableMark e => e.base
  | .wrapfCount _ e => e.base
  | e => e

/-- xerrors.Is(err, target) for a leaf target: unwrap and compare. -/
def errIs (e target : GoErr) : Bool := e.base == target

/-- Whether a retryability mark (xerrors.Retryable) occurs in the wrap chain;
this is the flag the Retry Policy inspects. -/
def GoErr.hasRetryableMark : GoErr → Bool
  | .stackTrace e => e.hasRetryableMark
  | .retryableMark _ => true
  | .wrapfCount _ e => e.hasRetryableMark
  | _ => false

/-- Drop outer stack-trace wrappers: stack-trace augmentation never changes
error identity. -/
def GoErr.stripStack : GoErr → GoErr
  | .stackTrace e => e.stripStack
  | e => e

/-- Modelled from the spec: xerrors.MustPessimizeEndpoint (the xerrors package
is not among the sources).  An error matches the configured set of
pessimizable RPC failure codes exactly when its underlying error is a
transport failure whose gRPC code is not in the configured exclusion list;
wrappers are transparent, so stack-trace augmentation does not alter the
classification. -/
def MustPessimizeEndpoint (e : GoErr) (excluded : List Nat) : Bool :=
  match e.base with
  | .transport code => !(excluded.contains code)
  | _ => false

/-- The mutable world owned by the Connection Pool: per-address health flags
and per-address endpoint liveness marks (Endpoint.Touch). -/
structure PoolState where
  health : String → ConnHealth
  touched : String → Bool

/-- conn.Pool.Get: resolve an endpoint to its pooled connection handle. -/
def PoolState.get (_p : PoolState) (e : Endpoint) : Conn := e

/-- conn.Pool.Allow: set the connection's health flag to Allowed. -/
def PoolState.allow (p : PoolState) (c : Conn) : PoolState :=
  { p with health := fun a => if a = c.address then ConnHealth.Allowed else p.health a }

/-- conn.Pool.Ban: set the connection's health flag to Banned. -/
def PoolState.ban (p : PoolState) (c : Conn) : PoolState :=
  { p with health := fun a => if a = c.address then ConnHealth.Banned else p.health a }

/-- Endpoint.Touch: refresh the endpoint's liveness mark. -/
def PoolState.touch (p : PoolState) (e : Endpoint) : PoolState :=
  { p with touched := fun a => if a = e.address then true else p.touched a }

/-- Conn.GetState: the pool is the source of truth for a handle's health. -/
def PoolState.getState (p : PoolState) (c : Conn) : ConnHealth := p.health c.address

/-- balancerConfig.Info: the caller's detected location. -/
structure Info where
  SelfLocation : String
deriving DecidableEq, Repr

/-- Modelled from the spec: the immutable snapshot built once per discovery
round — the full connection list partitioned into a preferred tier and a
fallback tier, whether a preference filter was supplied (it is nil exactly
for the single-connection snapshot), and the fallback-permission flag. -/
structure connectionsState where
  connections : List Conn
  prefer : List Conn
  fallback : List Conn
  hasFilter : Bool
  allowFallback : Bool
deriving DecidableEq, Repr

/-- Modelled from the spec: newConnectionsState.  With no filter (nil, the
single-connection snapshot) every connection is preferred; with a filter the
connections matching the caller's location form the preferred tier and the
rest the fallback tier. -/
def newConnectionsState (conns : List Conn) (filter : Option (Info → Conn → Bool))
    (info : Info) (allowFallback : Bool) : connectionsState :=
  match filter with
  | none =>
      { connections := conns, prefer := conns, fallback := [],
        hasFilter := false, allowFallback := allowFallback }
  | some f =>
      { connections := conns, prefer := conns.filter (fun c => f info c),
        fallback := conns.filter (fun c => !(f info c)),
        hasFilter := true, allowFallback := allowFallback }

/-- Modelled from the spec: preferred-tier size of the snapshot. -/
def connectionsState.PreferredCount (s : connectionsState) : Nat := s.prefer.length

/-- Search one tier in order for an Allowed connection, counting each skipped
Banned connection into the accumulator. -/
def searchAllowed (health : String → ConnHealth) : List Conn → Nat → Option Conn × Nat
  | [], skipped => (none, skipped)
  | c :: rest, skipped =>
      if health c.address = ConnHealth.Banned then searchAllowed health rest (skipped + 1)
      else (some c, skipped)

/-- Modelled from the spec: connectionsState.GetConnection.  The
single-connection snapshot (no filter) always returns its one connection
regardless of health; otherwise the preferred tier is searched first,
skipping Banned connections and counting each skip, then — when permitted —
the fallback tier, still accumulating the skip count; when nothing Allowed is
found, no connection and the total skip count are returned. -/
def connectionsState.GetConnection (s : connectionsState) (health : String → ConnHealth) :
    Option Conn × Nat :=
  if s.hasFilter = false then (s.connections.head?, 0)
  else
    match searchAllowed health s.prefer 0 with
    | (some c, n) => (some c, n)
    | (none, n) =>
        if s.allowFallback then searchAllowed health s.fallback n
        else (none, n)

/-- Externally visible actions, in program order. -/
inductive Event where
  | allow (addr : String) : Event
  | ban (addr : String) : Event
  | touch (addr : String) : Event
  | force : Event
  | stopRepeater : Event
  | lockAcquire : Event
  | lockRelease : Event
  | rlockAcquire : Event
  | rlockRelease : Event
  | swap : Event
  | notify (idx : Nat) : Event
  | discoveryAttempt : Event
deriving DecidableEq, Repr

/-- The Balancer's state: the pool world, the current snapshot reference, a
flag for the configured repeater (nil when periodic refresh is disabled), the
number of registered update subscribers, and the configuration it consults
(preference filter, fallback permission, locality detection, pessimization
exclusion codes). -/
structure Balancer where
  pool : PoolState
  connectionsState : connectionsState
  hasRepeater : Bool
  subscribers : Nat
  filter : Option (Info → Conn → Bool)
  allowFallback : Bool
  detectLocalDC : Bool
  excludedCodes : List Nat

/-- endpointsToConnections: resolve every discovered endpoint to its pool
handle. -/
def endpointsToConnections (p : PoolState) (endpoints : List Endpoint) : List Conn :=
  endpoints.map (fun e => p.get e)

/-- The pool updates of applyDiscoveredEndpoints: for each resolved
connection, pool.Allow then Endpoint.Touch, in list order. -/
def allowAndTouchAll (p : PoolState) (conns : List Conn) : PoolState :=
  conns.foldl (fun p c => (p.allow c).touch c.endpointOf) p

/-- applyDiscoveredEndpoints: un-ban and touch every resolved connection,
build the new snapshot, then under the exclusive lock swap the snapshot
reference and invoke every registered update subscriber. -/
def applyDiscoveredEndpoints (b : Balancer) (endpoints : List Endpoint) (localDC : String) :
    Balancer × List Event :=
  let connections := endpointsToConnections b.pool endpoints
  let pool1 := allowAndTouchAll b.pool connections
  let evsPool := connections.flatMap (fun c => [Event.allow c.address, Event.touch c.address])
  let info : Info := ⟨localDC⟩
  let state := newConnectionsState connections b.filter info b.allowFallback
  let evsLock := [Event.lockAcquire, Event.swap] ++
    (List.range b.subscribers).map Event.notify ++ [Event.lockRelease]
  ({ b with pool := pool1, connectionsState := state }, evsPool ++ evsLock)

/-- Balancer.Close: stop the repeater when one was configured; nothing else
changes. -/
def Balancer.Close (b : Balancer) : Option GoErr × Balancer × List Event :=
  (none, b, if b.hasRepeater then [Event.stopRepeater] else [])

/-- Balancer.connections: copy the current snapshot reference under the read
lock. -/
def Balancer.connections (b : Balancer) : YdbBalancer.connectionsState × List Event :=
  (b.connectionsState, [Event.rlockAcquire, Event.rlockRelease])

/-- Balancer.getConn: fail immediately when the caller's context is already
done; otherwise copy the snapshot once, select over it, and on return force
an out-of-band discovery run when the skipped-Banned count times two strictly
exceeds the snapshot's preferred-tier size and a repeater exists; a selection
that found nothing yields a wrap of ErrNoEndpoints carrying the skip count. -/
def Balancer.getConn (b : Balancer) (ctxErr : Option GoErr) : Except GoErr Conn × List Event :=
  match ctxErr with
  | some e => (Except.error (GoErr.stackTrace e), [])
  | none =>
    let se := b.connections
    let cf := se.1.GetConnection b.pool.health
    let forceEvs : List Event :=
      if cf.2 * 2 > se.1.PreferredCount ∧ b.hasRepeater = true then [Event.force] else []
    match cf.1 with
    | none =>
        (Except.error (GoErr.stackTrace (GoErr.wrapfCount cf.2 GoErr.noEndpoints)),
          se.2 ++ forceEvs)
    | some c => (Except.ok c, se.2 ++ forceEvs)

/-- The outcome environment of one wrapped call: the caller's context state,
the result of attaching call metadata (driverConfig.Meta().Context), the
wrapped operation's outcome per connection, and whether error wrapping is
enabled on the context (conn.UseWrapping). -/
structure CallEnv where
  ctxErr : Option GoErr
  metaResult : Option GoErr
  opResult : Conn → Option GoErr
  useWrapping : Bool

/-- Balancer.wrapCall: obtain a connection, attach metadata, run the
operation; the deferred feedback then allows a still-Banned connection on
success and bans the connection on a pessimizable failure.  A getConn failure
returns before the feedback is registered. -/
def Balancer.wrapCall (b : Balancer) (env : CallEnv) : Option GoErr × Balancer × List Event :=
  match b.getConn env.ctxErr with
  | (Except.error e, evs) => (some (GoErr.stackTrace e), b, evs)
  | (Except.ok cc, evs) =>
    let err : Option GoErr :=
      match env.metaResult with
      | some e => some (GoErr.stackTrace e)
      | none =>
        match env.opResult cc with
        | some e => if env.useWrapping then some (GoErr.stackTrace e) else some e
        | none => none
    match err with
    | none =>
        if b.pool.getState cc = ConnHealth.Banned then
          (none, { b with pool := b.pool.allow cc }, evs ++ [Event.allow cc.address])
        else (none, b, evs)
    | some e =>
        if MustPessimizeEndpoint e b.excludedCodes then
          (some e, { b with pool := b.pool.ban cc }, evs ++ [Event.ban cc.address])
        else (some e, b, evs)

/-- The outcome environment of one discovery attempt: the attempt context's
error state as observed by the deferred classifier, and the outcomes of
discovery-client construction, endpoint enumeration and locality detection
(all run against the bounded child context). -/
structure AttemptEnv where
  parentErrAtDefer : Option GoErr
  clientNew : Option GoErr
  discoverResult : Except GoErr (List Endpoint)
  detectResult : Except GoErr String

/-- The body of clusterDiscoveryAttempt before its deferred error
reclassification: construct the discovery client, enumerate endpoints,
optionally detect locality, then apply the discovered endpoints. -/
def attemptBody (env : AttemptEnv) (b : Balancer) : Option GoErr × Balancer × List Event :=
  match env.clientNew with
  | some e => (some (GoErr.stackTrace e), b, [Event.discoveryAttempt])
  | none =>
    match env.discoverResult with
    | Except.error e => (some (GoErr.stackTrace e), b, [Event.discoveryAttempt])
    | Except.ok endpoints =>
      if b.detectLocalDC then
        match env.detectResult with
        | Except.error e => (some (GoErr.stackTrace e), b, [Event.discoveryAttempt])
        | Except.ok dc =>
            let bt := applyDiscoveredEndpoints b endpoints dc
            (none, bt.1, Event.discoveryAttempt :: bt.2)
      else
        let bt := applyDiscoveredEndpoints b endpoints ""
        (none, bt.1, Event.discoveryAttempt :: bt.2)

/-- clusterDiscoveryAttempt: run the body, then — as the deferred block does —
reclassify the error as retryable exactly when the attempt's parent context
is still live while the error is a context deadline-exceeded or cancellation
error. -/
def clusterDiscoveryAttempt (env : AttemptEnv) (b : Balancer) :
    Option GoErr × Balancer × List Event :=
  match attemptBody env b with
  | (none, b1, tr) => (none, b1, tr)
  | (some e, b1, tr) =>
      if env.parentErrAtDefer.isNone &&
          (errIs e GoErr.deadlineExceeded || errIs e GoErr.canceled) then
        (some (GoErr.stackTrace (GoErr.retryableMark e)), b1, tr)
      else (some e, b1, tr)

/-- clusterDiscovery: the attempt wrapped in the Retry Policy (external; the
retry loop is abstracted to the attempt itself) with the stack-trace
augmentation of both return sites. -/
def clusterDiscovery (env : AttemptEnv) (b : Balancer) :
    Option GoErr × Balancer × List Event :=
  match clusterDiscoveryAttempt env b with
  | (none, b1, tr) => (none, b1, tr)
  | (some e, b1, tr) => (some (GoErr.stackTrace (GoErr.stackTrace e)), b1, tr)

/-- The configuration New consults: the configured endpoint address,
single-connection mode, whether the discovery interval is positive, and the
balancer configuration fields. -/
structure DriverConfig where
  endpointAddr : String
  singleConn : Bool
  discoveryIntervalPositive : Bool
  detectLocalDC : Bool
  allowFallback : Bool
  filter : Option (Info → Conn → Bool)
  excludedCodes : List Nat

/-- New: in single-connection mode build the one-connection snapshot with no
filter and perform no discovery and start no repeater; otherwise run the
initial discovery round synchronously and, when the discovery interval is
positive, start the periodic repeater. -/
def New (cfg : DriverConfig) (pool : PoolState) (env : AttemptEnv) :
    Except GoErr Balancer × List Event :=
  let b0 : Balancer :=
    { pool := pool,
      connectionsState := newConnectionsState [] none ⟨""⟩ false,
      hasRepeater := false, subscribers := 0,
      filter := cfg.filter, allowFallback := cfg.allowFallback,
      detectLocalDC := cfg.detectLocalDC, excludedCodes := cfg.excludedCodes }
  if cfg.singleConn then
    let st := newConnectionsState
      (endpointsToConnections pool [Endpoint.New cfg.endpointAddr]) none ⟨""⟩ false
    (Except.ok { b0 with connectionsState := st }, [])
  else
    match clusterDiscovery env b0 with
    | (some e, _, evs) => (Except.error (GoErr.stackTrace e), evs)
    | (none, b1, evs) =>
        (Except.ok { b1 with hasRepeater := cfg.discoveryIntervalPositive }, evs)

/-- The snapshot reads of one getConn call made explicit against a timeline
of published snapshots: each acquisition of the read lock observes the
snapshot current at that instant (`snaps t` for the t-th read the call
performs), and the last component counts how many such reads occurred.  The
body is getConn with its single `connections()` read replaced by `snaps 0`;
both the selection and the forced-rediscovery threshold check use that one
copied reference, exactly as the source does. -/
def Balancer.getConnSeq (b : Balancer) (snaps : Nat → YdbBalancer.connectionsState)
    (ctxErr : Option GoErr) : Except GoErr Conn × List Event × Nat :=
  match ctxErr with
  | some e => (Except.error (GoErr.stackTrace e), [], 0)
  | none =>
    let state := snaps 0
    let cf := state.GetConnection b.pool.health
    let forceEvs : List Event :=
      if cf.2 * 2 > state.PreferredCount ∧ b.hasRepeater = true then [Event.force] else []
    match cf.1 with
    | none =>
        (Except.error (GoErr.stackTrace (GoErr.wrapfCount cf.2 GoErr.noEndpoints)),
          [Event.rlockAcquire, Event.rlockRelease] ++ forceEvs, 1)
    | some c => (Except.ok c, [Event.rlockAcquire, Event.rlockRelease] ++ forceEvs, 1)

/-! Concrete fixtures used by the witness theorems. -/

/-- A world in which every connection is Banned. -/
def poolBanned : PoolState := { health := fun _ => ConnHealth.Banned, touched := fun _ => false }

/-- A world in which every connection is Allowed. -/
def poolAllowed : PoolState := { health := fun _ => ConnHealth.Allowed, touched := fun _ => false }

def epA : Endpoint := ⟨"a"⟩

def epB : Endpoint := ⟨"b"⟩

def epC : Endpoint := ⟨"c"⟩

/-- A preference filter keeping addresses a and b in the preferred tier. -/
def filterAB : Option (Info → Conn → Bool) :=
  some (fun _ c => c.address == "a" || c.address == "b")

/-- A tiered snapshot over three connections, two of them preferred. -/
def stTiered : connectionsState := newConnectionsState [epA, epB, epC] filterAB ⟨"dc"⟩ true

/-- A balancer whose pool has every connection Banned, with a repeater and one
registered subscriber. -/
def bTiered : Balancer :=
  { pool := poolBanned, connectionsState := stTiered, hasRepeater := true, subscribers := 1,
    filter := filterAB, allowFallback := true, detectLocalDC := true, excludedCodes := [] }

/-- The single-connection snapshot over address a. -/
def stSingle : connectionsState := newConnectionsState [epA] none ⟨""⟩ false

/-- A single-connection balancer whose one connection is currently Banned. -/
def bSingle : Balancer :=
  { pool := poolBanned, connectionsState := stSingle, hasRepeater := false, subscribers := 0,
    filter := none, allowFallback := false, detectLocalDC := false, excludedCodes := [] }

/-- A call whose operation fails with a pessimizable transport error. -/
def envOpFail : CallEnv :=
  { ctxErr := none, metaResult := none,
    opResult := fun _ => some (GoErr.transport 14), useWrapping := false }

/-- A call whose operation succeeds. -/
def envOpOk : CallEnv :=
  { ctxErr := none, metaResult := none, opResult := fun _ => none, useWrapping := false }

/-- A call on which attaching the call metadata fails with a transport error. -/
def envMetaFail : CallEnv :=
  { ctxErr := none, metaResult := some (GoErr.transport 4),
    opResult := fun _ => none, useWrapping := false }

/-- A discovery attempt whose endpoint enumeration fails with a cancellation
while the parent context is still live. -/
def envAttemptCanceled : AttemptEnv :=
  { parentErrAtDefer := none, clientNew := none,
    discoverResult := Except.error GoErr.canceled, detectResult := Except.ok "dc" }

/-- A single-connection configuration. -/
def cfgSingle : DriverConfig :=
  { endpointAddr := "a", singleConn := true, discoveryIntervalPositive := false,
    detectLocalDC := false, allowFallback := false, filter := none, excludedCodes := [] }

/-- A snapshot timeline on which a new snapshot is published right after the
call's single read. -/
def snapsSwap : Nat → connectionsState := fun n => if n = 0 then stTiered else stSingle

/-- The timeline with no concurrent publish. -/
def snapsStable : Nat → connectionsState := fun _ => stTiered

/-- The balancer New builds in single-connection mode: the one-connection
snapshot with no filter, no repeater. -/
def singleConnBalancer (cfg : DriverConfig) (pool : PoolState) : Balancer :=
  { pool := pool,
    connectionsState := newConnectionsState
      (endpointsToConnections pool [Endpoint.New cfg.endpointAddr]) none ⟨""⟩ false,
    hasRepeater := false, subscribers := 0, filter := cfg.filter,
    allowFallback := cfg.allowFallback, detectLocalDC := cfg.detectLocalDC,
    excludedCodes := cfg.excludedCodes }

/-! Helper lemmas. -/

/-- Stack-trace augmentation is transparent to the pessimization classifier. -/
theorem MustPessimizeEndpoint_stackTrace (e : GoErr) (l : List Nat) :
    MustPessimizeEndpoint (GoErr.stackTrace e) l = MustPessimizeEndpoint e l := rfl

/-- Banning a connection sets its own health flag to Banned. -/
theorem PoolState.ban_health_self (p : PoolState) (c : Conn) :
    (p.ban c).health c.address = ConnHealth.Banned := by
  simp [PoolState.ban]

/-- Allowing a connection sets its own health flag to Allowed. -/
theorem PoolState.allow_health_self (p : PoolState) (c : Conn) :
    (p.allow c).health c.address = ConnHealth.Allowed := by
  simp [PoolState.allow]

/-- The event trace of a getConn call with a live context: the read-locked
snapshot copy followed by the forced run exactly under the threshold
condition. -/
theorem getConn_none_trace (b : Balancer) :
    (b.getConn none).2 = [Event.rlockAcquire, Event.rlockRelease] ++
      (if (b.connectionsState.GetConnection b.pool.health).2 * 2 >
          b.connectionsState.PreferredCount ∧ b.hasRepeater = true
       then [Event.force] else []) := by
  unfold Balancer.getConn
  simp only [Balancer.connections]
  split <;> rfl

/-- C1: for every call to getConn with a live context, a forced out-of-band
discovery run (Repeater.Force) is triggered if and only if the number of
skipped Banned connections observed during selection times 2 strictly exceeds
the snapshot's preferred-tier size and the repeater exists; at the boundary
where the skip count is exactly half the preferred-tier size, no forced run
is triggered. -/
theorem getConn_forces_rediscovery_iff (b : Balancer) :
    (Event.force ∈ (b.getConn none).2 ↔
      ((b.connectionsState.GetConnection b.pool.health).2 * 2 >
          b.connectionsState.PreferredCount ∧ b.hasRepeater = true))
    ∧ ((b.connectionsState.GetConnection b.pool.health).2 * 2 =
          b.connectionsState.PreferredCount →
        Event.force ∉ (b.getConn none).2) := by
  rw [getConn_none_trace]
  constructor
  · by_cases h : (b.connectionsState.GetConnection b.pool.health).2 * 2 >
        b.connectionsState.PreferredCount ∧ b.hasRepeater = true
    · simp [h]
    · simp [h]
  · intro heq
    have hng : ¬ ((b.connectionsState.GetConnection b.pool.health).2 * 2 >
        b.connectionsState.PreferredCount ∧ b.hasRepeater = true) := by
      rintro ⟨hgt, -⟩
      omega
    simp [hng]

/-- C5: getConn returns immediately with the context's error (stack-trace
augmented, identity unchanged) when the caller's context is already done,
performing no selection and emitting no events; and when selection over the
current snapshot yields no connection it returns an error wrapping
ErrNoEndpoints that carries the count of Banned connections skipped during
the search. -/
theorem getConn_ctx_done_and_noEndpoints (b : Balancer)
    (h : (b.connectionsState.GetConnection b.pool.health).1 = none) :
    (∀ (b2 : Balancer) (e : GoErr),
        b2.getConn (some e) = (Except.error (GoErr.stackTrace e), []))
    ∧ (b.getConn none).1 = Except.error (GoErr.stackTrace
        (GoErr.wrapfCount ((b.connectionsState.GetConnection b.pool.health).2)
          GoErr.noEndpoints))
    ∧ errIs (GoErr.wrapfCount ((b.connectionsState.GetConnection b.pool.health).2)
        GoErr.noEndpoints) GoErr.noEndpoints = true := by
  refine ⟨fun b2 e => rfl, ?_, rfl⟩
  unfold Balancer.getConn
  simp only [Balancer.connections]
  simp [h]

/-- Witness for C5: a tiered snapshot whose three connections are all Banned;
selection finds nothing after 3 skips and getConn wraps ErrNoEndpoints with
that count. -/
theorem getConn_ctx_done_and_noEndpoints_witness :
    (bTiered.connectionsState.GetConnection bTiered.pool.health).1 = none
    ∧ (bTiered.getConn none).1 = Except.error (GoErr.stackTrace
        (GoErr.wrapfCount 3 GoErr.noEndpoints)) :=
  ⟨rfl, (getConn_ctx_done_and_noEndpoints bTiered rfl).2.1⟩

/-- C8: Close stops the discovery repeater when one was configured (and emits
nothing when none was) and changes nothing else: the pool (no connection
closed or banned), the current snapshot reference and the registered update
subscribers are all left exactly as they were, and no error is returned. -/
theorem Close_stops_repeater_only (b : Balancer) :
    b.Close = (none, b, if b.hasRepeater then [Event.stopRepeater] else []) := rfl

/-- C2: when the wrapped operation fails, the error is returned to the caller
unchanged in identity (stack-trace augmentation only, applied exactly when
wrapping is enabled on the context); the chosen connection is marked Banned
in the pool exactly when the error matches the configured set of pessimizable
failure codes, and its health is left untouched (the whole balancer state is
unchanged) otherwise. -/
theorem wrapCall_failure_pessimizes (b : Balancer) (env : CallEnv) (cc : Conn) (e : GoErr)
    (hctx : env.ctxErr = none)
    (hconn : (b.getConn none).1 = Except.ok cc)
    (hmeta : env.metaResult = none)
    (hop : env.opResult cc = some e) :
    (b.wrapCall env).1 = some (if env.useWrapping then GoErr.stackTrace e else e)
    ∧ ((b.wrapCall env).1.map GoErr.stripStack) = some e.stripStack
    ∧ (MustPessimizeEndpoint e b.excludedCodes = true →
        ((b.wrapCall env).2.1.pool.health cc.address = ConnHealth.Banned
          ∧ Event.ban cc.address ∈ (b.wrapCall env).2.2))
    ∧ (MustPessimizeEndpoint e b.excludedCodes = false →
        (b.wrapCall env).2.1 = b) := by
  rcases hg : b.getConn none with ⟨r, evs⟩
  have hr : r = Except.ok cc := by rw [hg] at hconn; exact hconn
  subst hr
  by_cases hw : env.useWrapping = true
  · by_cases hp : MustPessimizeEndpoint e b.excludedCodes = true
    · simp [Balancer.wrapCall, hctx, hg, hmeta, hop, hw, hp,
        MustPessimizeEndpoint_stackTrace, PoolState.ban_health_self, GoErr.stripStack]
    · simp [Balancer.wrapCall, hctx, hg, hmeta, hop, hw,
        MustPessimizeEndpoint_stackTrace, eq_false_of_ne_true hp, GoErr.stripStack]
  · have hw2 : env.useWrapping = false := by
      cases hwv : env.useWrapping
      · rfl
      · exact absurd hwv hw
    by_cases hp : MustPessimizeEndpoint e b.excludedCodes = true
    · simp [Balancer.wrapCall, hctx, hg, hmeta, hop, hw2, hp,
        PoolState.ban_health_self, GoErr.stripStack]
    · simp [Balancer.wrapCall, hctx, hg, hmeta, hop, hw2,
        eq_false_of_ne_true hp, GoErr.stripStack]

/-- Witness for C2: the single-connection balancer, an operation failing with
transport code 14 and an empty exclusion list; the call returns that error
and the connection ends up Banned. -/
theorem wrapCall_failure_pessimizes_witness :
    envOpFail.opResult epA = some (GoErr.transport 14)
    ∧ (bSingle.wrapCall envOpFail).1 = some (GoErr.transport 14) :=
  ⟨rfl, by
    have h := wrapCall_failure_pessimizes bSingle envOpFail epA (GoErr.transport 14)
      rfl rfl rfl rfl
    simpa [envOpFail] using h.1⟩

/-- C6: when the wrapped operation succeeds, no error is returned; if the
chosen connection's health flag is Banned at completion time it is restored
to Allowed in the pool, and if it is Allowed nothing at all changes. -/
theorem wrapCall_success_restores (b : Balancer) (env : CallEnv) (cc : Conn)
    (hctx : env.ctxErr = none)
    (hconn : (b.getConn none).1 = Except.ok cc)
    (hmeta : env.metaResult = none)
    (hop : env.opResult cc = none) :
    (b.wrapCall env).1 = none
    ∧ (b.pool.health cc.address = ConnHealth.Banned →
        ((b.wrapCall env).2.1.pool.health cc.address = ConnHealth.Allowed
          ∧ Event.allow cc.address ∈ (b.wrapCall env).2.2))
    ∧ (b.pool.health cc.address = ConnHealth.Allowed →
        (b.wrapCall env).2.1 = b) := by
  rcases hg : b.getConn none with ⟨r, evs⟩
  have hr : r = Except.ok cc := by rw [hg] at hconn; exact hconn
  subst hr
  cases hh : b.pool.health cc.address
  · simp [Balancer.wrapCall, hctx, hg, hmeta, hop, PoolState.getState, hh]
  · simp [Balancer.wrapCall, hctx, hg, hmeta, hop, PoolState.getState, hh,
      PoolState.allow_health_self]

/-- Witness for C6: the single-connection balancer whose one connection is
Banned; a successful call restores it to Allowed. -/
theorem wrapCall_success_restores_witness :
    bSingle.pool.health epA.address = ConnHealth.Banned
    ∧ (bSingle.wrapCall envOpOk).2.1.pool.health epA.address = ConnHealth.Allowed :=
  ⟨rfl, ((wrapCall_success_restores bSingle envOpOk epA rfl rfl rfl rfl).2.1 rfl).1⟩

/-- C10: when attaching call metadata fails after a connection has been
selected, that metadata error is returned (stack-trace augmented) without the
wrapped operation ever being consulted, and it still goes through the
pessimization classification, so the selected connection is marked Banned
when the metadata error matches the pessimizable set. -/
theorem wrapCall_meta_error_pessimizes (b : Balancer) (env : CallEnv) (cc : Conn) (e : GoErr)
    (hctx : env.ctxErr = none)
    (hconn : (b.getConn none).1 = Except.ok cc)
    (hmeta : env.metaResult = some e) :
    (b.wrapCall env).1 = some (GoErr.stackTrace e)
    ∧ (∀ g : Conn → Option GoErr,
        b.wrapCall { env with opResult := g } = b.wrapCall env)
    ∧ (MustPessimizeEndpoint e b.excludedCodes = true →
        ((b.wrapCall env).2.1.pool.health cc.address = ConnHealth.Banned
          ∧ Event.ban cc.address ∈ (b.wrapCall env).2.2))
    ∧ (MustPessimizeEndpoint e b.excludedCodes = false →
        (b.wrapCall env).2.1 = b) := by
  rcases hg : b.getConn none with ⟨r, evs⟩
  have hr : r = Except.ok cc := by rw [hg] at hconn; exact hconn
  subst hr
  refine ⟨?_, ?_, ?_, ?_⟩
  · by_cases hp : MustPessimizeEndpoint e b.excludedCodes = true
    · simp [Balancer.wrapCall, hctx, hg, hmeta, hp, MustPessimizeEndpoint_stackTrace]
    · simp [Balancer.wrapCall, hctx, hg, hmeta, MustPessimizeEndpoint_stackTrace,
        eq_false_of_ne_true hp]
  · intro g
    simp [Balancer.wrapCall, hctx, hg, hmeta]
  · intro hp
    constructor
    · simp [Balancer.wrapCall, hctx, hg, hmeta, hp, MustPessimizeEndpoint_stackTrace,
        PoolState.ban_health_self]
    · simp [Balancer.wrapCall, hctx, hg, hmeta, hp, MustPessimizeEndpoint_stackTrace]
  · intro hp
    simp [Balancer.wrapCall, hctx, hg, hmeta, MustPessimizeEndpoint_stackTrace, hp]

/-- Witness for C10: metadata attachment fails with transport code 4 on the
single-connection balancer; the error is returned and the connection is
Banned although the operation was never invoked. -/
theorem wrapCall_meta_error_pessimizes_witness :
    envMetaFail.metaResult = some (GoErr.transport 4)
    ∧ (bSingle.wrapCall envMetaFail).1 = some (GoErr.stackTrace (GoErr.transport 4))
    ∧ (bSingle.wrapCall envMetaFail).2.1.pool.health epA.address = ConnHealth.Banned := by
  have h := wrapCall_meta_error_pessimizes bSingle envMetaFail epA (GoErr.transport 4)
    rfl rfl rfl
  exact ⟨rfl, h.1, (h.2.2.1 rfl).1⟩

/-- C3: a failing discovery attempt has its error reclassified as retryable
(wrapped in the retryability mark, then stack-trace augmented) exactly when
the attempt's parent context is still live while the error is a context
deadline-exceeded or cancellation error — which, the bounded child context
being the only context the attempt's sub-operations run under, is a
deadline/cancellation arising on the child; every other failure propagates
exactly as produced, with no retryable marking added. -/
theorem clusterDiscoveryAttempt_retryable_iff (env : AttemptEnv) (b : Balancer) (u : GoErr)
    (h : (attemptBody env b).1 = some u) :
    (clusterDiscoveryAttempt env b).1 =
      some (if env.parentErrAtDefer.isNone &&
              (errIs u GoErr.deadlineExceeded || errIs u GoErr.canceled)
            then GoErr.stackTrace (GoErr.retryableMark u) else u)
    ∧ (GoErr.hasRetryableMark u = false →
        GoErr.hasRetryableMark ((clusterDiscoveryAttempt env b).1.getD u)
          = (env.parentErrAtDefer.isNone &&
              (errIs u GoErr.deadlineExceeded || errIs u GoErr.canceled))) := by
  rcases hb : attemptBody env b with ⟨oe, b1, tr⟩
  have hoe : oe = some u := by rw [hb] at h; exact h
  subst hoe
  cases hcond : env.parentErrAtDefer.isNone &&
      (errIs u GoErr.deadlineExceeded || errIs u GoErr.canceled)
  · constructor
    · simp [clusterDiscoveryAttempt, hb, hcond]
    · intro hm
      simp [clusterDiscoveryAttempt, hb, hcond, hm]
  · constructor
    · simp [clusterDiscoveryAttempt, hb, hcond]
    · intro hm
      simp [clusterDiscoveryAttempt, hb, hcond, GoErr.hasRetryableMark]

/-- Witness for C3: endpoint enumeration fails with a cancellation while the
parent context is live; the attempt's error comes back stack-trace wrapped
around the retryability mark. -/
theorem clusterDiscoveryAttempt_retryable_iff_witness :
    (attemptBody envAttemptCanceled bTiered).1 = some (GoErr.stackTrace GoErr.canceled)
    ∧ (clusterDiscoveryAttempt envAttemptCanceled bTiered).1 =
        some (GoErr.stackTrace (GoErr.retryableMark (GoErr.stackTrace GoErr.canceled))) := by
  have h := clusterDiscoveryAttempt_retryable_iff envAttemptCanceled bTiered
    (GoErr.stackTrace GoErr.canceled) rfl
  exact ⟨rfl, by simpa [envAttemptCanceled, errIs, GoErr.base] using h.1⟩

/-- C7: constructing the Balancer in single-connection mode performs no
discovery round and starts no repeater (so that instance never performs
discovery, periodic or forced), the initial snapshot holds exactly the one
connection of the configured endpoint, and selection over that snapshot
returns that one connection whatever the health of any connection. -/
theorem New_singleConn_mode (cfg : DriverConfig) (pool : PoolState) (env : AttemptEnv)
    (h : cfg.singleConn = true) :
    (New cfg pool env).2 = []
    ∧ ∃ b : Balancer, (New cfg pool env).1 = Except.ok b
        ∧ b.hasRepeater = false
        ∧ b.connectionsState.connections = [Endpoint.New cfg.endpointAddr]
        ∧ (∀ health : String → ConnHealth,
            b.connectionsState.GetConnection health = (some (Endpoint.New cfg.endpointAddr), 0)) := by
  have hEq : New cfg pool env = (Except.ok (singleConnBalancer cfg pool), []) := by
    simp [New, h, singleConnBalancer]
  refine ⟨by rw [hEq], ⟨_, by rw [hEq], rfl, ?_, ?_⟩⟩
  · simp [singleConnBalancer, newConnectionsState, endpointsToConnections, PoolState.get]
  · intro health
    simp [singleConnBalancer, connectionsState.GetConnection, newConnectionsState,
      endpointsToConnections, PoolState.get]

/-- Witness for C7: the concrete single-connection configuration; the fresh
balancer serves the one connection for address a even with every connection
Banned. -/
theorem New_singleConn_mode_witness :
    cfgSingle.singleConn = true
    ∧ ((New cfgSingle poolBanned envAttemptCanceled).2 = []) := by
  have h := New_singleConn_mode cfgSingle poolBanned envAttemptCanceled rfl
  exact ⟨rfl, h.1⟩

/-- Resolving endpoints through the pool yields the handles bound to those
endpoints. -/
theorem endpointsToConnections_eq (p : PoolState) (l : List Endpoint) :
    endpointsToConnections p l = l := by
  induction l with
  | nil => rfl
  | cons c rest ih =>
      show c :: endpointsToConnections p rest = c :: rest
      rw [ih]

/-- One allow-and-touch step of applyDiscoveredEndpoints, unfolded. -/
theorem allowAndTouchAll_cons (p : PoolState) (c : Conn) (rest : List Conn) :
    allowAndTouchAll p (c :: rest) = allowAndTouchAll ((p.allow c).touch c.endpointOf) rest :=
  rfl

/-- The allow-and-touch pass leaves the health of addresses outside the
discovered list untouched. -/
theorem allowAndTouchAll_health_notmem (conns : List Conn) (p : PoolState) (a : String)
    (h : a ∉ conns.map Endpoint.address) :
    (allowAndTouchAll p conns).health a = p.health a := by
  induction conns generalizing p with
  | nil => rfl
  | cons c rest ih =>
      simp only [List.map_cons, List.mem_cons, not_or] at h
      rw [allowAndTouchAll_cons, ih _ h.2]
      simp [PoolState.allow, PoolState.touch, Conn.endpointOf, h.1]

/-- The allow-and-touch pass leaves the liveness marks of addresses outside
the discovered list untouched. -/
theorem allowAndTouchAll_touched_notmem (conns : List Conn) (p : PoolState) (a : String)
    (h : a ∉ conns.map Endpoint.address) :
    (allowAndTouchAll p conns).touched a = p.touched a := by
  induction conns generalizing p with
  | nil => rfl
  | cons c rest ih =>
      simp only [List.map_cons, List.mem_cons, not_or] at h
      rw [allowAndTouchAll_cons, ih _ h.2]
      simp [PoolState.allow, PoolState.touch, Conn.endpointOf, h.1]

/-- After the allow-and-touch pass every discovered connection is Allowed. -/
theorem allowAndTouchAll_health_mem (conns : List Conn) (p : PoolState) (a : String)
    (h : a ∈ conns.map Endpoint.address) :
    (allowAndTouchAll p conns).health a = ConnHealth.Allowed := by
  induction conns generalizing p with
  | nil => simp at h
  | cons c rest ih =>
      rw [allowAndTouchAll_cons]
      by_cases hm : a ∈ rest.map Endpoint.address
      · exact ih _ hm
      · have ha : a = c.address := by
          simp only [List.map_cons, List.mem_cons] at h
          exact h.resolve_right hm
        rw [allowAndTouchAll_health_notmem _ _ _ hm]
        simp [PoolState.allow, PoolState.touch, Conn.endpointOf, ha]

/-- After the allow-and-touch pass every discovered endpoint's liveness mark
is set. -/
theorem allowAndTouchAll_touched_mem (conns : List Conn) (p : PoolState) (a : String)
    (h : a ∈ conns.map Endpoint.address) :
    (allowAndTouchAll p conns).touched a = true := by
  induction conns generalizing p with
  | nil => simp at h
  | cons c rest ih =>
      rw [allowAndTouchAll_cons]
      by_cases hm : a ∈ rest.map Endpoint.address
      · exact ih _ hm
      · have ha : a = c.address := by
          simp only [List.map_cons, List.mem_cons] at h
          exact h.resolve_right hm
        rw [allowAndTouchAll_touched_notmem _ _ _ hm]
        simp [PoolState.allow, PoolState.touch, Conn.endpointOf, ha]

/-- C4: after a successful discovery round, every connection resolved from
the discovered endpoint list has its health set to Allowed (un-banning it)
and its endpoint's liveness mark set; the published snapshot is the one newly
built from the resolved connections, and in the emitted trace the snapshot
swap and the notification of every registered update subscriber lie strictly
between the exclusive-lock acquisition and its release, while the un-banning
happens before the lock (hence before publication). -/
theorem applyDiscoveredEndpoints_spec (b : Balancer) (endpoints : List Endpoint)
    (localDC : String) (e : Endpoint) (i : Nat)
    (he : e ∈ endpoints) (hi : i < b.subscribers) :
    ((applyDiscoveredEndpoints b endpoints localDC).1.pool.health e.address = ConnHealth.Allowed)
    ∧ ((applyDiscoveredEndpoints b endpoints localDC).1.pool.touched e.address = true)
    ∧ ((applyDiscoveredEndpoints b endpoints localDC).1.connectionsState =
        newConnectionsState (endpointsToConnections b.pool endpoints) b.filter ⟨localDC⟩
          b.allowFallback)
    ∧ ∃ pre mid, (applyDiscoveredEndpoints b endpoints localDC).2 =
          pre ++ Event.lockAcquire :: (mid ++ [Event.lockRelease])
        ∧ Event.allow e.address ∈ pre
        ∧ Event.lockAcquire ∉ pre
        ∧ Event.swap ∈ mid
        ∧ Event.notify i ∈ mid
        ∧ Event.lockRelease ∉ mid := by
  have hconn : endpointsToConnections b.pool endpoints = endpoints :=
    endpointsToConnections_eq b.pool endpoints
  have hmem : e.address ∈ (endpointsToConnections b.pool endpoints).map Endpoint.address := by
    rw [hconn]
    exact List.mem_map_of_mem Endpoint.address he
  refine ⟨?_, ?_, rfl, ?_⟩
  · exact allowAndTouchAll_health_mem _ _ _ hmem
  · exact allowAndTouchAll_touched_mem _ _ _ hmem
  · refine ⟨(endpointsToConnections b.pool endpoints).flatMap
        (fun c => [Event.allow c.address, Event.touch c.address]),
      Event.swap :: (List.range b.subscribers).map Event.notify, ?_, ?_, ?_, ?_, ?_, ?_⟩
    · show (endpointsToConnections b.pool endpoints).flatMap
          (fun c => [Event.allow c.address, Event.touch c.address]) ++
          ([Event.lockAcquire, Event.swap] ++
            (List.range b.subscribers).map Event.notify ++ [Event.lockRelease]) = _
      simp
    · rw [hconn]
      exact List.mem_flatMap.2 ⟨e, he, by simp⟩
    · intro hmemLock
      rcases List.mem_flatMap.1 hmemLock with ⟨c, -, hc⟩
      simp at hc
    · exact List.mem_cons_self _ _
    · exact List.mem_cons_of_mem _ (List.mem_map_of_mem Event.notify (List.mem_range.2 hi))
    · intro hmemRel
      rcases List.mem_cons.1 hmemRel with hsw | hnt
      · exact absurd hsw (by simp)
      · rcases List.mem_map.1 hnt with ⟨j, -, hj⟩
        exact absurd hj (by simp)

/-- Witness for C4: two discovered endpoints on the all-Banned balancer with
one subscriber; endpoint a is un-banned and touched. -/
theorem applyDiscoveredEndpoints_spec_witness :
    epA ∈ [epA, epB]
    ∧ 0 < bTiered.subscribers
    ∧ (applyDiscoveredEndpoints bTiered [epA, epB] "dc").1.pool.health epA.address =
        ConnHealth.Allowed :=
  ⟨by simp, by decide,
    (applyDiscoveredEndpoints_spec bTiered [epA, epB] "dc" epA 0 (by simp) (by decide)).1⟩

/-- C9: one call copies the snapshot reference exactly once (at most one read
of the shared reference) and every later step of the call — the selection and
the forced-rediscovery threshold check — uses that same copy: two snapshot
timelines agreeing on the instant of the call's single read give identical
outcomes however they differ afterwards, so a concurrent publish can never
make an in-flight call read connections from two different snapshots; on the
constant timeline the sequenced model coincides with getConn itself. -/
theorem getConn_single_snapshot (b : Balancer)
    (snaps snaps2 : Nat → YdbBalancer.connectionsState) (ctxErr : Option GoErr)
    (h : snaps 0 = snaps2 0) :
    b.getConnSeq snaps ctxErr = b.getConnSeq snaps2 ctxErr
    ∧ (b.getConnSeq snaps ctxErr).2.2 ≤ 1
    ∧ (b.getConnSeq (fun _ => b.connectionsState) ctxErr).1 = (b.getConn ctxErr).1
    ∧ (b.getConnSeq (fun _ => b.connectionsState) ctxErr).2.1 = (b.getConn ctxErr).2 := by
  refine ⟨?_, ?_, ?_, ?_⟩
  · cases ctxErr
    · simp only [Balancer.getConnSeq, h]
    · rfl
  · cases ctxErr
    · unfold Balancer.getConnSeq
      split
      · simp
      · dsimp only
        split <;> simp
    · simp [Balancer.getConnSeq]
  · cases ctxErr
    · unfold Balancer.getConnSeq Balancer.getConn
      simp only [Balancer.connections]
      split <;> rfl
    · rfl
  · cases ctxErr
    · unfold Balancer.getConnSeq Balancer.getConn
      simp only [Balancer.connections]
      split <;> rfl
    · rfl

/-- Witness for C9: a publish swapping in the single-connection snapshot
right after the call's one read does not change the call's outcome. -/
theorem getConn_single_snapshot_witness :
    snapsSwap 0 = snapsStable 0
    ∧ bTiered.getConnSeq snapsSwap none = bTiered.getConnSeq snapsStable none :=
  ⟨rfl, (getConn_single_snapshot bTiered snapsSwap snapsStable none rfl).1⟩

end YdbBalancer
